import Mathlib

/-!
Shallow embedding of the container lifecycle orchestration layer of the
mine-prospector repository (src/src/service.rs, src/src/main.rs).

The remote Docker engine is an external collaborator; we model it as a
record of response functions (`Engine`), one per engine operation the
service issues.  Each service method of the source becomes a pure Lean
function of the engine record and its Rust arguments.  Engine calls that
can fail are modelled with `Bool` (call succeeded?) or `Option` (payload
or failure); a Rust panic is modelled as the `none` of an outer `Option`.
Strings stand for Rust `String` and `PathBuf` (the source immediately
converts the path to `&str`), and `Nat` stands for `u32` (no arithmetic
is performed on ports, so no overflow is involved).
-/

/-- src/src/main.rs line 17: `const DEFAULT_MC_PORT: u32 = 25565;` -/
def DEFAULT_MC_PORT : Nat := 25565

/-- `MCServerCommands` enum (service.rs lines 215-218): a single variant
`OP(String)`. -/
inductive MCServerCommands where
  | OP : String → MCServerCommands
deriving DecidableEq

/-- Escape of one character as in Rust's derived `Debug` formatting of a
string: quote, backslash and the common control characters are escaped,
any other character printed as itself. -/
def rustEscapeChar (c : Char) : String :=
  if c = '"' then "\\\""
  else if c = '\\' then "\\\\"
  else if c = '\n' then "\\n"
  else if c = '\t' then "\\t"
  else if c = '\r' then "\\r"
  else String.singleton c

/-- Rust `Debug` rendering of a `String`: the escaped contents between
double quotes. -/
def rustDebugString (s : String) : String :=
  "\"" ++ String.join (s.data.map rustEscapeChar) ++ "\""

/-- Derived `Debug` rendering of `MCServerCommands` (the `{:?}` used in
the `FailedToRunCommand` message): `OP("name")`. -/
def MCServerCommands.debugFmt : MCServerCommands → String
  | .OP name => "OP(" ++ rustDebugString name ++ ")"

/-- `impl ToString for MCServerCommands` (service.rs lines 220-226):
`OP(name)` formats as `format!("/op {}\n", name)`. -/
def MCServerCommands.toString : MCServerCommands → String
  | .OP name => "/op " ++ name ++ "\n"

/-- `MCError` enum (service.rs lines 14-22). -/
inductive MCError where
  | FailedToCreateContainer : MCError
  | FailedToStartContainer : String → MCError
  | FailedToInspectContainer : String → MCError
  | FailedToStopContainer : String → MCError
  | FailedToRunCommand : String → MCServerCommands → MCError
  | FailedToRMContainer : String → MCError
  | ContainerError : String → String → MCError
deriving DecidableEq

/-- `impl ToString for MCError` (service.rs lines 24-36): each `format!`
arm, with `{}` of a string argument inserting it verbatim and `{:?}` of
the command inserting its `Debug` rendering. -/
def MCError.toString : MCError → String
  | .FailedToCreateContainer => "failed to create container"
  | .FailedToStartContainer x => "failed to start container " ++ x
  | .FailedToInspectContainer x => "failed to inspect container " ++ x
  | .FailedToStopContainer x => "failed to stop container " ++ x
  | .FailedToRunCommand x c =>
      "failed to run command " ++ c.debugFmt ++ " on container " ++ x
  | .FailedToRMContainer x => "failed to rm container " ++ x
  | .ContainerError _ e => e

/-- `MCContainer` (service.rs lines 91-93): a typed wrapper around the
engine-assigned container id. -/
structure MCContainer where
  id : String
deriving DecidableEq

/-- `shiplift::rep::ContainerState` as used by the source: only the
`error : String` field is read (service.rs line 142). -/
structure ContainerState where
  error : String
deriving DecidableEq

/-- `shiplift::rep::ContainerDetails` as used by the source: only the
`state` field is read. -/
structure ContainerDetails where
  state : ContainerState
deriving DecidableEq

/-- `shiplift::rep::ContainerCreateInfo`: the engine's create response,
an id and optional warnings (service.rs lines 70-78). -/
structure ContainerCreateInfo where
  id : String
  warnings : Option (List String)
deriving DecidableEq

/-- One host-port binding of the engine payload.  shiplift's
`ContainerOptionsBuilder::expose(srcport, protocol, hostport)` (external
collaborator) inserts into the Docker `PortBindings` map the entry keyed
`"srcport/protocol"` — the container-side port — with `HostPort` set to
`hostport`; this record keeps those three components. -/
structure PortBinding where
  containerPort : Nat
  protocol : String
  hostPort : Nat
deriving DecidableEq

/-- The engine container-options payload built by `MCService::create`
(service.rs lines 57-62): image, environment, bind mounts, stdin
attachment flag and port bindings. -/
structure ContainerOptions where
  image : String
  env : List String
  volumes : List String
  attachStdin : Bool
  portBindings : List PortBinding
deriving DecidableEq

/-- `shiplift::RmContainerOptions` as built by `rm` (service.rs lines
201-203): only the `force` flag is set. -/
structure RmContainerOptions where
  force : Bool
deriving DecidableEq

/-- `MCServerOptions` (service.rs lines 238-242); the `PathBuf` volume is
modelled by its string path, which is what `create` extracts from it. -/
structure MCServerOptions where
  volume : String
  port : Nat
  name : String
deriving DecidableEq

/-- `MCServerOptionsBuilder` (service.rs lines 244-248). -/
structure MCServerOptionsBuilder where
  name : String
  port : Nat
  volume : String
deriving DecidableEq

/-- `MCServerOptionsBuilder::new` (service.rs lines 252-258): seeds the
builder with the given name and volume and `port: DEFAULT_MC_PORT`. -/
def MCServerOptionsBuilder.new (name : String) (volume : String) :
    MCServerOptionsBuilder :=
  { name := name, volume := volume, port := DEFAULT_MC_PORT }

/-- `MCServerOptionsBuilder::port` (service.rs lines 260-263), the fluent
port override; named `withPort` here because Lean already uses `port` for
the field projection. -/
def MCServerOptionsBuilder.withPort (b : MCServerOptionsBuilder) (port : Nat) :
    MCServerOptionsBuilder :=
  { b with port := port }

/-- `MCServerOptionsBuilder::build` (service.rs lines 265-271). -/
def MCServerOptionsBuilder.build (b : MCServerOptionsBuilder) : MCServerOptions :=
  { volume := b.volume, port := b.port, name := b.name }

/-- `MCServerLogOptions` (service.rs lines 228-230). -/
structure MCServerLogOptions where
  limit : String
deriving DecidableEq

/-- `impl Default for MCServerLogOptions` (service.rs lines 232-236). -/
def MCServerLogOptions.default : MCServerLogOptions :=
  { limit := "20" }

/-- The remote container engine, modelled as its responses to each call
the service issues.  `Bool` results say whether the call succeeded;
`Option` results carry the payload on success and `none` on failure.
Calls are keyed by the container id (and, for create, the submitted
options; for remove, the removal options; for logs, the tail limit), so
that which arguments the service passes is visible in the theorems.
`writeOk`/`flushOk` are the outcomes of the `write_all`/`flush` calls the
`run_command` closure makes on the attached stream. -/
structure Engine where
  createResult : ContainerOptions → Option ContainerCreateInfo
  startResult : String → Bool
  inspectResult : String → Option ContainerDetails
  stopResult : String → Bool
  attachResult : String → Bool
  writeOk : String → Bool
  flushOk : String → Bool
  logsResult : String → String → Option (List String)
  removeResult : String → RmContainerOptions → Bool

/-- The engine calls `start` can issue, recorded in issue order. -/
inductive EngineCall where
  | start : String → EngineCall
  | inspect : String → EngineCall
deriving DecidableEq

/-- `MCService::get_container` (service.rs lines 82-86): pure
construction of a handle from a caller-supplied id, no engine call. -/
def get_container (id : String) : MCContainer :=
  { id := id }

/-- The container-options payload `MCService::create` builds
(service.rs lines 56-62): env `EULA=TRUE`, one bind mount
`volume_path:/data`, stdin attached, and
`expose(options.port, "tcp", DEFAULT_MC_PORT)` — per shiplift's
`expose`, the first argument is the container-side port key of the
binding and the third the host-side port. -/
def createOptions (image : String) (options : MCServerOptions) :
    ContainerOptions :=
  { image := image
    env := ["EULA=TRUE"]
    volumes := [options.volume ++ ":/data"]
    attachStdin := true
    portBindings :=
      [{ containerPort := options.port, protocol := "tcp",
         hostPort := DEFAULT_MC_PORT }] }

/-- `MCService::create` (service.rs lines 55-80): submits the payload;
an engine failure maps to `FailedToCreateContainer`; warnings in the
response are only logged (`warn!`) and do not affect the result; on
success the engine-assigned id is wrapped via `get_container`. -/
def MCService.create (eng : Engine) (image : String)
    (options : MCServerOptions) : Except MCError MCContainer :=
  match eng.createResult (createOptions image options) with
  | none => .error .FailedToCreateContainer
  | some info =>
      -- `info.warnings` is iterated for `warn!` logging only
      .ok (get_container info.id)

/-- `MCContainerService::start` (service.rs lines 114-147) together with
the list of engine calls it issues, in order: the start call first; only
on its success the inspect call; an inspect payload whose `state.error`
is non-empty (`!is_empty`) turns into `ContainerError` carrying the id
and that error string. -/
def MCContainerService.start (eng : Engine) (container : MCContainer) :
    Except MCError Unit × List EngineCall :=
  let container_id := container.id
  match eng.startResult container_id with
  | false => (.error (.FailedToStartContainer container_id),
              [.start container_id])
  | true =>
    match eng.inspectResult container_id with
    | none => (.error (.FailedToInspectContainer container_id),
               [.start container_id, .inspect container_id])
    | some container_info =>
        if !container_info.state.error.isEmpty then
          (.error (.ContainerError container_id container_info.state.error),
           [.start container_id, .inspect container_id])
        else
          (.ok (), [.start container_id, .inspect container_id])

/-- `MCContainerService::stop` (service.rs lines 149-160). -/
def MCContainerService.stop (eng : Engine) (container : MCContainer) :
    Except MCError Unit :=
  let container_id := container.id
  match eng.stopResult container_id with
  | false => .error (.FailedToStopContainer container_id)
  | true => .ok ()

/-- `MCContainerService::run_command` (service.rs lines 162-179): blocks
on `attach().map(closure)`; the closure calls `write_all` with the
command's serialized bytes and then `flush`, but drops both `Result`s
(no `?`), so only a failure of the attach future reaches the
`map_err` producing `FailedToRunCommand`. -/
def MCContainerService.run_command (eng : Engine) (container : MCContainer)
    (command : MCServerCommands) : Except MCError Unit :=
  let container_id := container.id
  let command_for_error := command
  match eng.attachResult container_id with
  | false => .error (.FailedToRunCommand container_id command_for_error)
  | true =>
      -- the closure runs: outcomes of write_all and flush are discarded
      let _writeResult := eng.writeOk container_id
      let _flushResult := eng.flushOk container_id
      .ok ()

/-- `MCContainerService::logs` (service.rs lines 181-195): the bridged
stream collection has its error mapped to `()` (after logging) and is
then unwrapped with `.expect("")`, so an engine failure panics — the
panic is the outer `none`.  On success every chunk is decoded with
`as_string_lossy` (the engine model already yields the decoded lines)
and the list is returned as the `Ok` of the declared
`Result<Vec<String>, ()>`, whose `Err` arm is never produced. -/
def MCContainerService.logs (eng : Engine) (container : MCContainer)
    (options : MCServerLogOptions) :
    Option (Except Unit (List String)) :=
  match eng.logsResult container.id options.limit with
  | none => none
  | some chunks => some (.ok chunks)

/-- `MCContainerService::rm` (service.rs lines 197-212): builds
`RmContainerOptions` with `force(true)` and issues the removal; an engine
failure maps to `FailedToRMContainer`. -/
def MCContainerService.rm (eng : Engine) (container : MCContainer) :
    Except MCError Unit :=
  let container_id := container.id
  let options : RmContainerOptions := { force := true }
  match eng.removeResult container_id options with
  | false => .error (.FailedToRMContainer container_id)
  | true => .ok ()

/-! ### Concrete engines for instantiating the theorems -/

/-- A concrete engine on which every call succeeds: create yields id
`"c1"` with one warning, inspect reports an empty error state, logs
yields two lines. -/
def engOk : Engine :=
  { createResult := fun _ => some { id := "c1", warnings := some ["w1"] }
    startResult := fun _ => true
    inspectResult := fun _ => some { state := { error := "" } }
    stopResult := fun _ => true
    attachResult := fun _ => true
    writeOk := fun _ => true
    flushOk := fun _ => true
    logsResult := fun _ _ => some ["line1", "line2"]
    removeResult := fun _ _ => true }

/-- Engine whose start call succeeds but whose inspect response carries a
non-empty error string. -/
def engStartFault : Engine :=
  { engOk with inspectResult := fun _ => some { state := { error := "driver failed" } } }

/-- Engine whose attach call fails. -/
def engAttachFail : Engine :=
  { engOk with attachResult := fun _ => false }

/-- Engine on which attach succeeds but the subsequent write and flush on
the attached stream fail. -/
def engWriteFail : Engine :=
  { engOk with writeOk := fun _ => false, flushOk := fun _ => false }

/-- Engine whose logs stream fails. -/
def engLogsFail : Engine :=
  { engOk with logsResult := fun _ _ => none }

/-- Engine whose removal call fails. -/
def engRmFail : Engine :=
  { engOk with removeResult := fun _ _ => false }

/-! ### Claim theorems -/

/-- C6: for every username, `OP(username)` serializes to the single
newline-terminated line `"/op "` followed by the username and `"\n"`;
in particular `OP("Alice")` serializes to `"/op Alice\n"`. -/
theorem op_command_serialization (username : String) :
    MCServerCommands.toString (.OP username) = "/op " ++ username ++ "\n" ∧
    MCServerCommands.toString (.OP "Alice") = "/op Alice\n" :=
  ⟨rfl, by decide⟩

/-- C8: the builder is seeded with host port 25565; the fluent port
override followed by `build` yields a spec with the overridden port and
the name and volume given to `new`; without the override, `build` yields
port 25565. -/
theorem builder_port_default_and_override (name volume : String) (p : Nat) :
    (MCServerOptionsBuilder.new name volume).port = 25565 ∧
    ((MCServerOptionsBuilder.new name volume).withPort p).build =
      { volume := volume, port := p, name := name } ∧
    (MCServerOptionsBuilder.new name volume).build =
      { volume := volume, port := 25565, name := name } :=
  ⟨rfl, rfl, rfl⟩

/-- C10: `ContainerError(id, message)` renders to exactly the engine
message, with the container id omitted, while every other id-carrying
variant renders with the id included (as a suffix of the message).
The rendering is the one `to_string` produces, which the routing layer
(server.rs) returns as the user-visible error body. -/
theorem error_rendering (id msg : String) (cmd : MCServerCommands) :
    (MCError.ContainerError id msg).toString = msg ∧
    (MCError.FailedToStartContainer id).toString =
      "failed to start container " ++ id ∧
    (MCError.FailedToInspectContainer id).toString =
      "failed to inspect container " ++ id ∧
    (MCError.FailedToStopContainer id).toString =
      "failed to stop container " ++ id ∧
    (MCError.FailedToRMContainer id).toString =
      "failed to rm container " ++ id ∧
    (∃ p, (MCError.FailedToRunCommand id cmd).toString = p ++ id) := by
  refine ⟨rfl, rfl, rfl, rfl, rfl,
    ⟨"failed to run command " ++ cmd.debugFmt ++ " on container ", ?_⟩⟩
  simp [MCError.toString, String.append_assoc]

/-- C4 (failing input): the payload `create` submits for the spec
`{name := "test", volume := "/srv/world", port := 25566}` has the
claimed environment variable, bind mount and stdin attachment, but its
port binding puts the spec's port 25566 on the container side and the
fixed port 25565 on the host side — the reverse of the claimed mapping,
because the source passes `options.port` as the first (container-side)
argument of shiplift's `expose` and `DEFAULT_MC_PORT` as the third
(host-side) one. -/
theorem create_options_port_sides :
    createOptions "itzg/minecraft-server"
        ((MCServerOptionsBuilder.new "test" "/srv/world").withPort 25566).build =
      { image := "itzg/minecraft-server"
        env := ["EULA=TRUE"]
        volumes := ["/srv/world:/data"]
        attachStdin := true
        portBindings :=
          [{ containerPort := 25566, protocol := "tcp", hostPort := 25565 }] } := by
  decide

/-- C3 (failing input): when the engine's logs stream fails, `logs`
panics — the `.expect("")` on the bridged result terminates the process
(modelled as `none`) instead of returning the failure as a value. -/
theorem logs_engine_failure_panics :
    MCContainerService.logs engLogsFail (get_container "abc")
      MCServerLogOptions.default = none :=
  rfl

/-- C1: `start` issues the engine start call first and issues the inspect
call exactly when the start call succeeded; a failed start call yields
`FailedToStartContainer(id)`, a failed inspect yields
`FailedToInspectContainer(id)`, a non-empty inspected error string yields
`ContainerError(id, message)` with the engine message verbatim even
though the start call succeeded, and `start` returns `()` exactly when
the start call succeeds, the inspect succeeds, and the inspected error
string is empty. -/
theorem start_two_step_verify (eng : Engine) (c : MCContainer) :
    (MCContainerService.start eng c).2.head? = some (.start c.id) ∧
    (EngineCall.inspect c.id ∈ (MCContainerService.start eng c).2 ↔
      eng.startResult c.id = true) ∧
    (eng.startResult c.id = false →
      MCContainerService.start eng c =
        (.error (.FailedToStartContainer c.id), [.start c.id])) ∧
    (eng.startResult c.id = true → eng.inspectResult c.id = none →
      (MCContainerService.start eng c).1 =
        .error (.FailedToInspectContainer c.id)) ∧
    (∀ d : ContainerDetails, eng.startResult c.id = true →
      eng.inspectResult c.id = some d → ¬d.state.error.isEmpty →
      (MCContainerService.start eng c).1 =
        .error (.ContainerError c.id d.state.error)) ∧
    ((MCContainerService.start eng c).1 = .ok () ↔
      eng.startResult c.id = true ∧
        ∃ d, eng.inspectResult c.id = some d ∧ d.state.error.isEmpty) := by
  unfold MCContainerService.start
  cases hs : eng.startResult c.id with
  | false => simp [hs]
  | true =>
    cases hi : eng.inspectResult c.id with
    | none => simp [hs, hi]
    | some d =>
      by_cases he : d.state.error.isEmpty <;> simp [hs, hi, he]

/-- C1 witness: on an engine whose start call succeeds and whose
inspected state carries the error "driver failed", `start` of container
"abc" returns `ContainerError("abc", "driver failed")`. -/
theorem start_two_step_verify_witness :
    (MCContainerService.start engStartFault (get_container "abc")).1 =
      .error (.ContainerError "abc" "driver failed") :=
  (start_two_step_verify engStartFault (get_container "abc")).2.2.2.2.1
    { state := { error := "driver failed" } } rfl rfl (by decide)

/-- C2 counterexample: on an engine where attach succeeds but both the
write and the flush on the attached stream fail, `run_command` still
returns `()` — the closure drops both results — refuting the claim that
a write or flush failure yields `FailedToRunCommand` and that `()` is
returned only when all three steps succeed. -/
theorem run_command_write_failure_ignored :
    engWriteFail.writeOk "abc" = false ∧
    engWriteFail.flushOk "abc" = false ∧
    MCContainerService.run_command engWriteFail (get_container "abc")
      (.OP "Alice") = .ok () :=
  ⟨rfl, rfl, rfl⟩

/-- C2 (amended): `run_command` returns `FailedToRunCommand` carrying the
handle's id and the original command exactly when the attach step fails;
the write and flush results are discarded, so it returns `()` whenever
attach succeeds. -/
theorem run_command_attach_only (eng : Engine) (c : MCContainer)
    (cmd : MCServerCommands) :
    (eng.attachResult c.id = false →
      MCContainerService.run_command eng c cmd =
        .error (.FailedToRunCommand c.id cmd)) ∧
    (MCContainerService.run_command eng c cmd = .ok () ↔
      eng.attachResult c.id = true) := by
  unfold MCContainerService.run_command
  cases h : eng.attachResult c.id <;> simp [h]

/-- C2 witness: on an engine whose attach call fails, `run_command` of
`OP("Alice")` on container "abc" returns
`FailedToRunCommand("abc", OP("Alice"))`. -/
theorem run_command_attach_only_witness :
    MCContainerService.run_command engAttachFail (get_container "abc")
      (.OP "Alice") = .error (.FailedToRunCommand "abc" (.OP "Alice")) :=
  (run_command_attach_only engAttachFail (get_container "abc") (.OP "Alice")).1 rfl

/-- C5: `create` returns either the handle wrapping the engine-assigned
id or `FailedToCreateContainer` with no id attached; a response carrying
warnings is still a success — the warnings are only logged. -/
theorem create_handle_or_failure (eng : Engine) (image : String)
    (o : MCServerOptions) :
    (eng.createResult (createOptions image o) = none →
      MCService.create eng image o = .error .FailedToCreateContainer) ∧
    (∀ info : ContainerCreateInfo,
      eng.createResult (createOptions image o) = some info →
      MCService.create eng image o = .ok (get_container info.id)) ∧
    (∀ (info : ContainerCreateInfo) (ws : List String),
      eng.createResult (createOptions image o) = some info →
      info.warnings = some ws →
      MCService.create eng image o = .ok (get_container info.id)) := by
  unfold MCService.create
  refine ⟨fun h => by simp [h], fun info h => by simp [h],
    fun info ws h _ => by simp [h]⟩

/-- C5 witness: on an engine whose create response is id "c1" with one
warning, `create` succeeds with the handle for "c1". -/
theorem create_handle_or_failure_witness :
    MCService.create engOk "itzg/minecraft-server"
      { volume := "/srv/world", port := 25566, name := "test" } =
      .ok (get_container "c1") :=
  (create_handle_or_failure engOk "itzg/minecraft-server"
      { volume := "/srv/world", port := 25566, name := "test" }).2.2
    { id := "c1", warnings := some ["w1"] } ["w1"] rfl rfl

/-- C7: `get_container` is pure construction — `get_container id` wraps
exactly the given id — and whenever `create` succeeds, re-resolving the
returned handle's id through `get_container` yields that same handle. -/
theorem get_container_roundtrip (id : String) (eng : Engine)
    (image : String) (o : MCServerOptions) :
    (get_container id).id = id ∧
    (∀ c : MCContainer, MCService.create eng image o = .ok c →
      get_container c.id = c) := by
  refine ⟨rfl, fun c _ => ?_⟩
  cases c
  rfl

/-- C7 witness: `create` on the all-success engine yields the handle for
"c1", and `get_container` applied to that handle's id returns it. -/
theorem get_container_roundtrip_witness :
    get_container (get_container "c1").id = get_container "c1" :=
  (get_container_roundtrip "c1" engOk "itzg/minecraft-server"
      { volume := "/srv/world", port := 25566, name := "test" }).2
    (get_container "c1") rfl

/-- C9: `rm` consults the engine's removal only at options with
`force := true`: it succeeds exactly when that forced removal call
succeeds, maps its failure to `FailedToRMContainer(id)`, and its result
is unchanged under any engine agreeing on the forced removal of that
id. -/
theorem rm_forced_removal (eng : Engine) (c : MCContainer) :
    (MCContainerService.rm eng c = .ok () ↔
      eng.removeResult c.id { force := true } = true) ∧
    (eng.removeResult c.id { force := true } = false →
      MCContainerService.rm eng c =
        .error (.FailedToRMContainer c.id)) ∧
    (∀ eng' : Engine,
      eng'.removeResult c.id { force := true } =
        eng.removeResult c.id { force := true } →
      MCContainerService.rm eng' c = MCContainerService.rm eng c) := by
  unfold MCContainerService.rm
  refine ⟨?_, ?_, fun eng' h => by simp only [h]⟩
  · cases h : eng.removeResult c.id { force := true } <;> simp [h]
  · intro h
    simp [h]

/-- C9 witness: on an engine whose removal call fails, `rm` of container
"abc" returns `FailedToRMContainer("abc")`. -/
theorem rm_forced_removal_witness :
    MCContainerService.rm engRmFail (get_container "abc") =
      .error (.FailedToRMContainer "abc") :=
  (rm_forced_removal engRmFail (get_container "abc")).2.1 rfl
